import Mathlib

/-
Verification of the question-generation pipeline of the genem backend.

Shallow embedding of:
  app/core/question_generator.py   (QuestionGeneratorAgent: workflow graph, stage
                                    functions, retry loop, draft parsing, service entry)
  app/core/groq_token_manager.py   (GroqTokenManager: credential rotation)
  app/core/config.py               (Settings.get_groq_tokens: credential pool assembly)
  app/schemas/alternative.py       (AlternativeCreate)
  app/schemas/question.py          (Question, DisciplineType, QuestionBase validators)
  app/schemas/generated_question.py (GeneratedQuestionCreate)

Python strings are modelled as Lean String (with List Char as the underlying
sequence); machine integers of the domain (years, counters) are Nat/Int.
External collaborators (the DuckDuckGo search call, the Groq chat-completion
HTTP call, the wall clock year) are modelled as explicit environment/oracle
parameters; everything the repository itself computes is translated from the
source.  Python exceptions are modelled with Except: a function that can raise
returns Except String α carrying str(e).  Exact wording of messages produced by
external libraries (json.JSONDecodeError, pydantic ValidationError) is modelled
by fixed descriptive strings; messages produced by the repository's own code
keep their literal text.
-/

set_option linter.unusedVariables false

namespace Genem

/-! ## Python string primitives -/

/-- Embedding of Python str.strip() (both-ends whitespace strip) on char lists. -/
def pyStrip (cs : List Char) : List Char :=
  ((cs.dropWhile Char.isWhitespace).reverse.dropWhile Char.isWhitespace).reverse

/-- str.strip() on String. -/
def pyStripStr (s : String) : String :=
  ⟨pyStrip s.data⟩

/-- Embedding of Python str.upper() (ASCII relevant here). -/
def upperStr (s : String) : String :=
  ⟨s.data.map Char.toUpper⟩

/-- Embedding of Python str.split() with no argument: split on whitespace runs,
dropping empty pieces. -/
def pySplitWs (s : String) : List String :=
  (s.split Char.isWhitespace).filter (fun p => p ≠ "")

/-- Embedding of Python slicing s[:n] (by characters). -/
def pyTake (s : String) (n : Nat) : String :=
  ⟨s.data.take n⟩

/-- Embedding of Python slicing s[-n:] (last min(n, len) characters). -/
def pyTakeRight (s : String) (n : Nat) : String :=
  ⟨s.data.drop (s.data.length - n)⟩

/-! ## JSON values and a model of Python json.loads

`_parse_generated_question` hands the extracted brace-balanced substring to the
standard library's `json.loads`.  That library is external to the repository;
it is modelled here by an executable recursive-descent parser for the JSON
fragment the pipeline exchanges (objects, arrays, strings with the common
escapes, integers, true/false/null).  Python dicts built by json.loads keep the
last occurrence of a duplicated key, hence the last-wins field lookup. -/

inductive JsonValue where
  | str (s : String)
  | num (n : Int)
  | bool (b : Bool)
  | null
  | arr (elems : List JsonValue)
  | obj (members : List (String × JsonValue))

def jsonSkipWs (cs : List Char) : List Char :=
  cs.dropWhile Char.isWhitespace

def parseStringLit : List Char → Option (String × List Char)
  | [] => none
  | '\\' :: e :: rest =>
    (match e with
     | '"' => some '"'
     | '\\' => some '\\'
     | '/' => some '/'
     | 'n' => some '\n'
     | 't' => some '\t'
     | 'r' => some '\r'
     | _ => none).bind fun c =>
      (parseStringLit rest).map fun (p : String × List Char) => ((⟨c :: p.1.data⟩ : String), p.2)
  | '"' :: rest => some ("", rest)
  | c :: rest =>
    (parseStringLit rest).map fun (p : String × List Char) => ((⟨c :: p.1.data⟩ : String), p.2)

def parseDigits : List Char → Nat → Nat → Option (Nat × List Char)
  | [], acc, count => if count = 0 then none else some (acc, [])
  | c :: rest, acc, count =>
    if c.isDigit then parseDigits rest (acc * 10 + (c.toNat - 48)) (count + 1)
    else if count = 0 then none else some (acc, c :: rest)

mutual

def parseJValue : Nat → List Char → Option (JsonValue × List Char)
  | 0, _ => none
  | fuel + 1, cs =>
    match jsonSkipWs cs with
    | '"' :: rest => (parseStringLit rest).map fun p => (.str p.1, p.2)
    | '{' :: rest => parseJMembers fuel rest true
    | '[' :: rest => parseJElems fuel rest true
    | 't' :: 'r' :: 'u' :: 'e' :: rest => some (.bool true, rest)
    | 'f' :: 'a' :: 'l' :: 's' :: 'e' :: rest => some (.bool false, rest)
    | 'n' :: 'u' :: 'l' :: 'l' :: rest => some (.null, rest)
    | '-' :: rest => (parseDigits rest 0 0).map fun p => (.num (-(p.1 : Int)), p.2)
    | other => (parseDigits other 0 0).map fun p => (.num (p.1 : Int), p.2)

def parseJMembers : Nat → List Char → Bool → Option (JsonValue × List Char)
  | 0, _, _ => none
  | fuel + 1, cs, isFirst =>
    match jsonSkipWs cs with
    | '}' :: rest => if isFirst then some (.obj [], rest) else none
    | '"' :: rest =>
      match parseStringLit rest with
      | none => none
      | some (key, r1) =>
        match jsonSkipWs r1 with
        | ':' :: r2 =>
          match parseJValue fuel r2 with
          | none => none
          | some (v, r3) =>
            match jsonSkipWs r3 with
            | ',' :: r4 =>
              match parseJMembers fuel r4 false with
              | some (.obj ms, r5) => some (.obj ((key, v) :: ms), r5)
              | _ => none
            | '}' :: r4 => some (.obj [(key, v)], r4)
            | _ => none
        | _ => none
    | _ => none

def parseJElems : Nat → List Char → Bool → Option (JsonValue × List Char)
  | 0, _, _ => none
  | fuel + 1, cs, isFirst =>
    match jsonSkipWs cs with
    | ']' :: rest => if isFirst then some (.arr [], rest) else none
    | cs2 =>
      match parseJValue fuel cs2 with
      | none => none
      | some (v, r1) =>
        match jsonSkipWs r1 with
        | ',' :: r2 =>
          match parseJElems fuel r2 false with
          | some (.arr es, r3) => some (.arr (v :: es), r3)
          | _ => none
        | ']' :: r2 => some (.arr [v], r2)
        | _ => none

end

/-- Model of json.loads on the extracted substring: full parse, no trailing
garbage.  Error text stands in for json.JSONDecodeError's message. -/
def jsonLoads (cs : List Char) : Except String JsonValue :=
  match parseJValue (cs.length + 1) cs with
  | some (v, rest) =>
    if jsonSkipWs rest = [] then .ok v else .error "Extra data in JSON document"
  | none => .error "Expecting value in JSON document"

/-- Python dict lookup for dicts produced by json.loads: last occurrence of the
key wins.  Returns none both when the value is not a dict and when the key is
missing (either situation raises in the Python code paths modelled below). -/
def JsonValue.getField (v : JsonValue) (k : String) : Option JsonValue :=
  match v with
  | .obj members => ((members.reverse).find? (fun p => p.1 = k)).map (fun p => p.2)
  | _ => none

/-! ## Schemas (app/schemas) -/

/-- DisciplineType (app/schemas/question.py): str Enum of the six disciplines. -/
inductive DisciplineType where
  | ciencias_humanas
  | ciencias_natureza
  | linguagens
  | matematica
  | espanhol
  | ingles
  deriving DecidableEq

/-- The str value carried by each DisciplineType member. -/
def DisciplineType.value : DisciplineType → String
  | .ciencias_humanas => "ciencias-humanas"
  | .ciencias_natureza => "ciencias-natureza"
  | .linguagens => "linguagens"
  | .matematica => "matematica"
  | .espanhol => "espanhol"
  | .ingles => "ingles"

/-- AlternativeCreate (app/schemas/alternative.py): letter (min_length 1),
required text (min_length 1), isCorrect.  The optional file/base64File fields
are never populated by the generation pipeline and are omitted. -/
structure AlternativeCreate where
  letter : String
  text : String
  isCorrect : Bool

/-- Pydantic validation performed when AlternativeCreate(...) is constructed in
`_parse_generated_question`: letter and text must be non-empty strings. -/
def mkAlternativeCreate (letter text : String) (isCorrect : Bool) :
    Except String AlternativeCreate :=
  if letter = "" then .error "letter: String should have at least 1 character"
  else if text = "" then .error "text: String should have at least 1 character"
  else .ok { letter := letter, text := text, isCorrect := isCorrect }

/-- Alternative (full schema, as carried by stored questions): text optional. -/
structure Alternative where
  letter : String
  text : Option String
  isCorrect : Bool

/-- Question (app/schemas/question.py): the source/similar question shape.
Fields not consulted by the generation pipeline (files, base64Files) are
omitted. -/
structure Question where
  id : String
  title : String
  index : Int
  discipline : DisciplineType
  language : Option String
  year : Int
  context : Option String
  correctAlternative : String
  alternativesIntroduction : Option String
  alternatives : List Alternative
  summary : Option String
  keywords : Option (List String)
  questionTopics : Option (List String)

/-- GeneratedQuestionData (question_generator.py lines 35-44): the parsed
draft. -/
structure GeneratedQuestionData where
  title : String
  context : String
  alternatives_introduction : Option String
  alternatives : List AlternativeCreate
  correct_alternative : String
  rationale : String
  summary : Option String
  keywords : Option (List String)

/-! ## Draft parsing (`_parse_generated_question`, lines 561-629)

The function strips code fences, extracts the first brace-balanced substring,
json.loads it, and materializes a GeneratedQuestionData, setting isCorrect on
each alternative by comparing its uppercased letter with the uppercased
correct_alternative. -/

def fenceJson : List Char := "```json".data

def fencePlain : List Char := "```".data

/-- Lines 564-577: strip, remove a leading code-fence marker (with or without
the json tag), remove a trailing code-fence marker, strip again. -/
def cleanContent (cs : List Char) : List Char :=
  let c1 := pyStrip cs
  let c2 :=
    if fenceJson.isPrefixOf c1 then c1.drop 7
    else if fencePlain.isPrefixOf c1 then c1.drop 3
    else c1
  let c3 := if fencePlain.isSuffixOf c2 then c2.take (c2.length - 3) else c2
  pyStrip c3

/-- Lines 584-594: scan from the first brace, counting depth; the balanced
prefix is the JSON candidate.  Mirrors the Python loop: when the scan runs out
without balancing, end_idx is still start_idx and the extracted slice is
empty. -/
def braceScan : List Char → Nat → List Char → List Char
  | [], _, _ => []
  | c :: cs, depth, acc =>
    if c = '{' then braceScan cs (depth + 1) (c :: acc)
    else if c = '}' then
      if depth = 1 then (c :: acc).reverse else braceScan cs (depth - 1) (c :: acc)
    else braceScan cs depth (c :: acc)

/-- Lines 579-597: find the first brace (ValueError "Nenhum JSON encontrado na
resposta" if absent) and take the brace-balanced slice from it. -/
def extractJson (cs : List Char) : Except String (List Char) :=
  match cs.dropWhile (fun c => c ≠ '{') with
  | [] => .error "Nenhum JSON encontrado na resposta"
  | rest => .ok (braceScan rest 0 [])

/-- Field access data[k] expecting a string value (str fields of the draft and
of each alternative; a missing key raises KeyError, a non-str value fails in
.upper() or in pydantic validation — all collapsed by the except into a parse
failure). -/
def jsonStrKey (v : JsonValue) (k : String) : Except String String :=
  match v.getField k with
  | some (.str s) => .ok s
  | some _ => .error ("Input should be a valid string: " ++ k)
  | none => .error ("KeyError: " ++ k)

/-- data.get(k) for the Optional[str] fields: absent or null gives None, a
string gives the string, anything else fails pydantic validation. -/
def jsonOptStrKey (v : JsonValue) (k : String) : Except String (Option String) :=
  match v.getField k with
  | none => .ok none
  | some .null => .ok none
  | some (.str s) => .ok (some s)
  | some _ => .error ("Input should be a valid string: " ++ k)

def jsonStrList : List JsonValue → Except String (List String)
  | [] => .ok []
  | .str s :: rest => (jsonStrList rest).map (fun l => s :: l)
  | _ :: _ => .error "Input should be a valid string: keywords item"

/-- data.get("keywords", []): absent gives [], null gives None (the field is
Optional[List[str]]), an array of strings gives the list. -/
def jsonKeywords (v : JsonValue) : Except String (Option (List String)) :=
  match v.getField "keywords" with
  | none => .ok (some [])
  | some .null => .ok none
  | some (.arr xs) => (jsonStrList xs).map (fun l => some l)
  | some _ => .error "Input should be a valid list: keywords"

/-- Lines 606-613: build the AlternativeCreate list, setting isCorrect on the
alternatives whose uppercased letter equals the uppercased correct letter. -/
def buildAlternatives (correctLetter : String) :
    List JsonValue → Except String (List AlternativeCreate)
  | [] => .ok []
  | a :: rest => do
    let letter ← jsonStrKey a "letter"
    let text ← jsonStrKey a "text"
    let alt ← mkAlternativeCreate letter text (upperStr letter = correctLetter)
    let alts ← buildAlternatives correctLetter rest
    pure (alt :: alts)

/-- Lines 602-624: from the decoded JSON object to GeneratedQuestionData. -/
def materializeDraft (data : JsonValue) : Except String GeneratedQuestionData := do
  let correctRaw ← jsonStrKey data "correct_alternative"
  let correctLetter := upperStr correctRaw
  let altsJson ←
    (match data.getField "alternatives" with
     | some (.arr xs) => Except.ok xs
     | some _ => Except.error "Input should be a valid list: alternatives"
     | none => Except.error "KeyError: alternatives")
  let alternatives ← buildAlternatives correctLetter altsJson
  let title ← jsonStrKey data "title"
  let context ← jsonStrKey data "context"
  let intro ← jsonOptStrKey data "alternatives_introduction"
  let rationale ← jsonStrKey data "rationale"
  let summary ← jsonOptStrKey data "summary"
  let keywords ← jsonKeywords data
  pure { title := title, context := context, alternatives_introduction := intro,
         alternatives := alternatives, correct_alternative := correctRaw,
         rationale := rationale, summary := summary, keywords := keywords }

def parseGeneratedQuestionCore (cs : List Char) : Except String GeneratedQuestionData := do
  let js ← extractJson (cleanContent cs)
  let v ← jsonLoads js
  materializeDraft v

/-- `_parse_generated_question` as a whole: any raised exception becomes an
error value (the caller's except re-raises it unchanged). -/
def parseGeneratedQuestion (response_content : String) : Except String GeneratedQuestionData :=
  parseGeneratedQuestionCore response_content.data

/-! ## Credential pool assembly (config.py, Settings.get_groq_tokens) -/

/-- Order-preserving deduplication (the seen-set loop of get_groq_tokens; also
the key set of the Python dict comprehension in GroqTokenManager.__init__). -/
def uniqueKeys (l : List String) : List String :=
  l.foldl (fun acc t => if t ∈ acc then acc else acc ++ [t]) []

/-- Settings.get_groq_tokens: the primary credential (if truthy) plus the
comma-separated extra credentials (stripped, empties dropped), deduplicated
preserving order. -/
def getGroqTokens (api_key : Option String) (api_tokens : Option String) : List String :=
  let primary :=
    match api_key with
    | some k => if k = "" then [] else [k]
    | none => []
  let additional :=
    match api_tokens with
    | some ts =>
      if ts = "" then []
      else ((ts.splitOn ",").map pyStripStr).filter (fun t => t ≠ "")
    | none => []
  uniqueKeys (primary ++ additional)

/-! ## Credential rotator (groq_token_manager.py, GroqTokenManager) -/

/-- GroqTokenManager state: the (stripped, non-empty-filtered, NOT deduplicated)
token list, the cyclic cursor of itertools.cycle, the current token, and the
per-token usage counters (a dict keyed by the distinct token strings).  The
threading.Lock serializing mutations is not representable in this sequential
embedding; each operation is modelled as one atomic state transition. -/
structure GroqTokenManager where
  tokens : List String
  cursor : Nat
  current_token : Option String
  token_usage_count : List (String × Nat)

/-- GroqTokenManager.__init__ (lines 13-26): reject an empty input list, strip
every entry and drop empties, reject if nothing remains; usage counters start
at 0 for each distinct token. -/
def mkGroqTokenManager (tokens : List String) : Except String GroqTokenManager :=
  if tokens = [] then .error "Lista de tokens não pode estar vazia"
  else if (tokens.map pyStripStr).filter (fun t => t ≠ "") = [] then
    .error "Nenhum token válido fornecido"
  else .ok { tokens := (tokens.map pyStripStr).filter (fun t => t ≠ ""), cursor := 0,
             current_token := none,
             token_usage_count :=
               (uniqueKeys ((tokens.map pyStripStr).filter (fun t => t ≠ ""))).map
                 (fun t => (t, 0)) }

def bumpUsage (u : List (String × Nat)) (t : String) : List (String × Nat) :=
  u.map (fun p => if p.1 = t then (p.1, p.2 + 1) else p)

/-- get_next_token (lines 28-38): advance the itertools.cycle cursor, record the
token as current, bump its usage counter, return it. -/
def getNextToken (m : GroqTokenManager) : String × GroqTokenManager :=
  let tok := m.tokens.getD (m.cursor % m.tokens.length) ""
  (tok, { m with cursor := m.cursor + 1, current_token := some tok,
                 token_usage_count := bumpUsage m.token_usage_count tok })

/-- The stats dict returned by get_token_stats. -/
structure TokenStats where
  total_tokens : Nat
  total_usage : Nat
  usage_per_token : List (String × Nat)
  current_token_masked : Option String

/-- Masking used in get_token_stats: "..." followed by the last 8 characters
(token[-8:]). -/
def maskToken (t : String) : String :=
  "..." ++ pyTakeRight t 8

/-- get_token_stats (lines 44-53). -/
def getTokenStats (m : GroqTokenManager) : TokenStats :=
  { total_tokens := m.tokens.length,
    total_usage := (m.token_usage_count.map (fun p => p.2)).sum,
    usage_per_token := m.token_usage_count,
    current_token_masked := m.current_token.map maskToken }

/-! ## Retrying invoker (`_call_llm_with_retry`, question_generator.py lines 90-127)

Every attempt performs one `GroqClient.chat_completion`, whose first action is
`get_current_groq_token()` — i.e. `get_next_token()` on the rotator — before the
HTTP request (groq_client.py line 41).  The HTTP outcome is the oracle: per
attempt index and assigned credential it yields either the response content or
the raised error.  `_refresh_token` (lines 81-88) only logs; it performs no
state change.  When the loop body never runs (max_retries = 0) the Python
function falls through and returns None, modelled by outcome = none. -/

structure RetryResult where
  outcome : Option (Except String String)
  mgr : GroqTokenManager
  tokensUsed : List String

def callLLMWithRetryGo (oracle : Nat → String → Except String String) :
    Nat → Nat → GroqTokenManager → List String → RetryResult
  | _, 0, m, used => { outcome := none, mgr := m, tokensUsed := used }
  | attempt, r + 1, m, used =>
    let next := getNextToken m
    match oracle attempt next.1 with
    | .ok content =>
      { outcome := some (.ok content), mgr := next.2, tokensUsed := used ++ [next.1] }
    | .error e =>
      if r = 0 then
        { outcome := some (.error e), mgr := next.2, tokensUsed := used ++ [next.1] }
      else
        callLLMWithRetryGo oracle (attempt + 1) r next.2 (used ++ [next.1])

def callLLMWithRetry (oracle : Nat → String → Except String String)
    (max_retries : Nat) (m : GroqTokenManager) : RetryResult :=
  callLLMWithRetryGo oracle 0 max_retries m []

/-- The credential itertools.cycle would hand out j rotations from now. -/
def tokenAt (m : GroqTokenManager) (j : Nat) : String :=
  m.tokens.getD ((m.cursor + j) % m.tokens.length) ""

/-- The credentials assigned by the next k rotations, in order. -/
def consecTokens (m : GroqTokenManager) (k : Nat) : List String :=
  (List.range k).map (tokenAt m)

/-! ## Workflow state (question_generator.py lines 25-59) -/

/-- QuestionGenerationStage. -/
inductive QuestionGenerationStage where
  | context_research
  | generation
  | validation
  | refinement
  | completed
  | failed
  deriving DecidableEq

/-- QuestionGenerationState (the LangGraph TypedDict).  messages uses the
add_messages reducer: every node update appends.  refinement_count and
max_refinements are non-negative integers (refinement_count starts at 0 and is
only ever incremented; max_refinements defaults to 3). -/
structure QuestionGenerationState where
  messages : List String
  stage : QuestionGenerationStage
  source_question : Question
  similar_questions : List Question
  user_id : String
  context_research : String
  generated_question : Option GeneratedQuestionData
  validation_feedback : String
  refinement_count : Nat
  max_refinements : Nat
  error_message : Option String

/-- External collaborators of one workflow run.  search_results is the outcome
of search_tool.invoke on the cleaned query; generation_llm / validation_llm are
the outcomes (content or raised error) of the retried completion call made by
the generation / validation node; refinement_llm is indexed by the current
refinement_count.  current_year is datetime.now().year. -/
structure WorkflowEnv where
  search_tool_available : Bool
  search_results : String → Except String String
  generation_llm : Except String String
  validation_llm : Except String String
  refinement_llm : Nat → Except String String
  current_year : Int

/-! ## Stage functions (graph nodes) -/

/-- `_build_search_query` (lines 369-400): up to 3 keywords, a discipline
qualifier looked up by the UPPERCASE key (the lookup always misses, because
DisciplineType values are lowercase, so the discipline value itself is used),
the current year; truncated to 80 characters. -/
def disciplineTerms : List (String × String) :=
  [("MATEMATICA", "matemática aplicada"),
   ("FISICA", "física moderna"),
   ("QUIMICA", "química atual"),
   ("BIOLOGIA", "biologia contemporânea"),
   ("GEOGRAFIA", "geografia atual"),
   ("HISTORIA", "história"),
   ("PORTUGUES", "língua portuguesa atual")]

def buildSearchQuery (env : WorkflowEnv) (question : Question) : String :=
  let keywords := (question.keywords.getD []).take 3
  let disciplineTerm :=
    ((disciplineTerms.find? (fun p => p.1 = question.discipline.value)).map
      (fun p => p.2)).getD question.discipline.value
  let query :=
    if keywords ≠ [] then
      String.intercalate " " keywords ++ " " ++ disciplineTerm ++ " " ++ toString env.current_year
    else
      disciplineTerm ++ " novidades " ++ toString env.current_year
  pyTake query 80

/-- `_search_internet` (lines 168-194): fail if the tool is missing; invoke the
search on the first 6 words of the query; a falsy or ≤10-character (after
strip) result raises; any raised error is rewrapped with the "Falha na busca
DuckDuckGo" prefix. -/
def searchInternet (env : WorkflowEnv) (query : String) : Except String String :=
  if env.search_tool_available = false then
    .error "Falha na busca DuckDuckGo: DuckDuckGo Search não inicializado"
  else
    let cleanQuery := String.intercalate " " ((pySplitWs query).take 6)
    match env.search_results cleanQuery with
    | .error e => .error ("Falha na busca DuckDuckGo: " ++ e)
    | .ok results =>
      if results ≠ "" ∧ 10 < (pyStripStr results).length then
        .ok ("Resultados da busca DuckDuckGo sobre '" ++ query ++ "':\n" ++ results)
      else
        .error "Falha na busca DuckDuckGo: Resultados DuckDuckGo vazios"

/-- Python `x or fallback` on an optional string field (empty string is falsy). -/
def orFallback (x : Option String) (fallback : String) : String :=
  match x with
  | some s => if s = "" then fallback else s
  | none => fallback

/-- The research-notes text assembled on lines 215-226 (surrounding
triple-quoted-string indentation elided). -/
def contextResearchText (query results : String) (q : Question) : String :=
  "Pesquisa sobre: " ++ query ++ "\n\nResultados encontrados:\n" ++ results ++
  "\n\nQuestão original como referência:\nTítulo: " ++ q.title ++
  "\nContexto: " ++ orFallback q.context "Sem contexto específico" ++
  "\nDisciplina: " ++ q.discipline.value ++
  "\nAno: " ++ toString q.year ++ "\n"

/-- `_research_context` node (lines 196-241).  On success it sets the stage to
CONTEXT_RESEARCH and stores the research notes; on any raised error it sets
stage FAILED with the rewrapped message ("Falha na busca online" from the inner
re-raise, "Erro na pesquisa de contexto" from the node's except). -/
def researchContextNode (env : WorkflowEnv) (s : QuestionGenerationState) :
    QuestionGenerationState :=
  match searchInternet env (buildSearchQuery env s.source_question) with
  | .error e =>
    { s with stage := .failed,
             error_message :=
               some ("Erro na pesquisa de contexto: " ++ ("Falha na busca online: " ++ e)) }
  | .ok results =>
    { s with stage := .context_research,
             context_research :=
               contextResearchText (buildSearchQuery env s.source_question) results
                 s.source_question,
             messages := s.messages ++ ["Pesquisa de contexto concluída com sucesso."] }

/-- `_generate_question` node (lines 243-276): retried completion call, then
draft parsing; any raised error is recorded with stage FAILED.  The prompt text
(lines 402-481) only feeds the completion oracle and does not influence any
other observable of the node. -/
def generateQuestionNode (env : WorkflowEnv) (s : QuestionGenerationState) :
    QuestionGenerationState :=
  match env.generation_llm with
  | .error e =>
    { s with stage := .failed, error_message := some ("Erro na geração da questão: " ++ e) }
  | .ok content =>
    match parseGeneratedQuestion content with
    | .error e =>
      { s with stage := .failed, error_message := some ("Erro na geração da questão: " ++ e) }
    | .ok q =>
      { s with stage := .generation, generated_question := some q,
               messages := s.messages ++ ["Questão gerada com sucesso."] }

/-- `_validate_question` node (lines 278-311): without a draft the node records
FAILED directly; otherwise the retried completion call's content becomes the
validation feedback, and a raised error is recorded with stage FAILED. -/
def validateQuestionNode (env : WorkflowEnv) (s : QuestionGenerationState) :
    QuestionGenerationState :=
  match s.generated_question with
  | none =>
    { s with stage := .failed, error_message := some "Nenhuma questão foi gerada para validar" }
  | some _ =>
    match env.validation_llm with
    | .error e =>
      { s with stage := .failed, error_message := some ("Erro na validação da questão: " ++ e) }
    | .ok feedback =>
      { s with stage := .validation, validation_feedback := feedback,
               messages := s.messages ++ ["Validação da questão concluída."] }

/-- `_refine_question` node (lines 313-347): retried completion call on the
refinement prompt, parse, replace the draft and increment refinement_count; a
raised error (including the AttributeError from building the prompt when no
draft exists) is recorded with stage FAILED. -/
def refineQuestionNode (env : WorkflowEnv) (s : QuestionGenerationState) :
    QuestionGenerationState :=
  match s.generated_question with
  | none =>
    { s with stage := .failed,
             error_message :=
               some "Erro no refinamento da questão: object has no attribute title" }
  | some _ =>
    match env.refinement_llm s.refinement_count with
    | .error e =>
      { s with stage := .failed, error_message := some ("Erro no refinamento da questão: " ++ e) }
    | .ok content =>
      match parseGeneratedQuestion content with
      | .error e =>
        { s with stage := .failed,
                 error_message := some ("Erro no refinamento da questão: " ++ e) }
      | .ok q =>
        { s with stage := .refinement, generated_question := some q,
                 refinement_count := s.refinement_count + 1,
                 messages := s.messages ++
                   ["Questão refinada (tentativa " ++ toString (s.refinement_count + 1) ++ ")."] }

/-! ## Conditional edges and the graph (lines 129-166, 349-367) -/

/-- `_decide_after_validation` (lines 349-357): complete when a draft exists,
fail otherwise. -/
def decideAfterValidation (s : QuestionGenerationState) : String :=
  match s.generated_question with
  | some _ => "complete"
  | none => "fail"

/-- `_decide_after_refinement` (lines 359-367): fail once refinement_count has
reached max_refinements, validate again otherwise. -/
def decideAfterRefinement (s : QuestionGenerationState) : String :=
  if s.max_refinements ≤ s.refinement_count then "fail" else "validate"

/-- The graph's nodes; endNode is LangGraph's END. -/
inductive GraphNode where
  | research
  | generation
  | validation
  | refinement
  | endNode
  deriving DecidableEq

/-- The conditional-edge mapping after validation_node (lines 146-154):
refine ↦ refinement_node, complete ↦ END, fail ↦ END.  The decide function
provably returns only these labels; any other label would be a KeyError in
LangGraph and is mapped to END here (see decideAfterValidation_labels). -/
def routeAfterValidation (label : String) : GraphNode :=
  if label = "refine" then .refinement else .endNode

/-- The conditional-edge mapping after refinement_node (lines 157-164):
validate ↦ validation_node, fail ↦ END. -/
def routeAfterRefinement (label : String) : GraphNode :=
  if label = "validate" then .validation else .endNode

/-- One LangGraph superstep: run the current node, merge its update, follow its
(conditional) edge. -/
def stepGraph (env : WorkflowEnv) :
    GraphNode → QuestionGenerationState → GraphNode × QuestionGenerationState
  | .research, s => (.generation, researchContextNode env s)
  | .generation, s => (.validation, generateQuestionNode env s)
  | .validation, s =>
    let s2 := validateQuestionNode env s
    (routeAfterValidation (decideAfterValidation s2), s2)
  | .refinement, s =>
    let s2 := refineQuestionNode env s
    (routeAfterRefinement (decideAfterRefinement s2), s2)
  | .endNode, s => (.endNode, s)

/-- Run the graph for at most fuel supersteps (LangGraph's default
recursion_limit is 25), counting executions of refinement_node.  Written as a
plain Nat recursor application so that runs unfold step by step: with fuel
zero the run stops where it is; with fuel + 1 an END node absorbs, any other
node executes one superstep and the run continues on the remaining fuel. -/
def runGraph (env : WorkflowEnv) (fuel : Nat) :
    GraphNode → QuestionGenerationState → Nat →
      GraphNode × QuestionGenerationState × Nat :=
  @Nat.rec
    (fun _ => GraphNode → QuestionGenerationState → Nat →
      GraphNode × QuestionGenerationState × Nat)
    (fun n s refs => (n, s, refs))
    (fun _ ih n s refs =>
      if n = .endNode then (.endNode, s, refs)
      else
        ih (stepGraph env n s).1 (stepGraph env n s).2
          (if n = .refinement then refs + 1 else refs))
    fuel

/-! ## Persistable record (app/schemas/generated_question.py) -/

/-- GeneratedQuestionCreate: QuestionBase fields plus user, rationale,
source_question_id; alternatives constrained to exactly 5.  created_at
(a wall-clock default) and the unused files/base64Files fields are omitted. -/
structure GeneratedQuestionCreate where
  title : String
  index : Int
  discipline : DisciplineType
  language : Option String
  year : Int
  context : Option String
  correctAlternative : String
  alternativesIntroduction : Option String
  alternatives : List AlternativeCreate
  summary : Option String
  keywords : Option (List String)
  questionTopics : Option (List String)
  user : String
  rationale : String
  source_question_id : String

/-- Construction of GeneratedQuestionCreate(...) on lines 671-687 together with
the pydantic validation it triggers: title min_length 1; year gt 0 and the
validator year ≥ 1998; correctAlternative min_length 1 plus the validator
restricting it to A..E (stored uppercased); exactly 5 alternatives
(min_items = max_items = 5); rationale min_length 1.  index is the constant 1
and trivially satisfies gt 0. -/
def mkGeneratedQuestionCreate (env : WorkflowEnv) (source_question : Question)
    (user_id : String) (gd : GeneratedQuestionData) :
    Except String GeneratedQuestionCreate :=
  if gd.title = "" then .error "title: String should have at least 1 character"
  else if env.current_year ≤ 0 then .error "year: Input should be greater than 0"
  else if env.current_year < 1998 then .error "Ano deve ser 1998 ou posterior"
  else if gd.correct_alternative = "" then
    .error "correctAlternative: String should have at least 1 character"
  else if upperStr gd.correct_alternative ∉ (["A", "B", "C", "D", "E"] : List String) then
    .error "Alternativa correta deve ser A, B, C, D ou E"
  else if gd.alternatives.length ≠ 5 then
    .error "alternatives: List should have exactly 5 items"
  else if gd.rationale = "" then .error "rationale: String should have at least 1 character"
  else .ok { title := gd.title, index := 1, discipline := source_question.discipline,
             language := source_question.language, year := env.current_year,
             context := some gd.context,
             correctAlternative := upperStr gd.correct_alternative,
             alternativesIntroduction := gd.alternatives_introduction,
             alternatives := gd.alternatives, summary := gd.summary,
             keywords := gd.keywords, questionTopics := source_question.questionTopics,
             user := user_id, rationale := gd.rationale,
             source_question_id := source_question.id }

/-! ## Service entry point (generate_question, lines 631-700) -/

/-- The dict returned by generate_question: either
\x7bsuccess: true, generated_question, refinement_count\x7d or
\x7bsuccess: false, error\x7d. -/
inductive GenResult where
  | success (generated_question : GeneratedQuestionCreate) (refinement_count : Nat)
  | failure (error : String)

def GenResult.isSuccess : GenResult → Bool
  | .success _ _ => true
  | .failure _ => false

/-- The initial QuestionGenerationState built on lines 640-652. -/
def initialState (source_question : Question) (similar_questions : List Question)
    (user_id : String) (max_refinements : Nat) : QuestionGenerationState :=
  { messages := [], stage := .context_research, source_question := source_question,
    similar_questions := similar_questions, user_id := user_id, context_research := "",
    generated_question := none, validation_feedback := "", refinement_count := 0,
    max_refinements := max_refinements, error_message := none }

/-- Lines 657-700 applied to the graph's final state fin: a FAILED stage yields
\x7bsuccess: false\x7d with the recorded message (default "Erro desconhecido na
geração"); a missing draft yields "Nenhuma questão foi gerada"; otherwise the
persistable record is built — a raised pydantic error is caught by the
function's blanket except and wrapped as "Erro na geração da questão: ...". -/
def serviceResult (env : WorkflowEnv) (source_question : Question) (user_id : String)
    (fin : QuestionGenerationState) : GenResult :=
  if fin.stage = .failed then
    .failure ((fin.error_message).getD "Erro desconhecido na geração")
  else
    match fin.generated_question with
    | none => .failure "Nenhuma questão foi gerada"
    | some gd =>
      match mkGeneratedQuestionCreate env source_question user_id gd with
      | .ok gq => .success gq fin.refinement_count
      | .error e => .failure ("Erro na geração da questão: " ++ e)

def generateQuestion (env : WorkflowEnv) (source_question : Question)
    (similar_questions : List Question) (user_id : String)
    (max_refinements : Nat) : GenResult :=
  serviceResult env source_question user_id
    (runGraph env 25 .research
      (initialState source_question similar_questions user_id max_refinements) 0).2.1

/-! ## Concrete instances used by witnesses and counterexamples -/

/-- A well-formed completion payload: 5 alternatives A..E, correct C. -/
def demoJson : String :=
  "\x7b\"title\": \"Funções e gráficos em 2024\", \"context\": \"Considere a função f definida no plano.\", \"alternatives_introduction\": \"Assinale a alternativa correta:\", \"alternatives\": [\x7b\"letter\": \"A\", \"text\": \"Opção A\"\x7d, \x7b\"letter\": \"B\", \"text\": \"Opção B\"\x7d, \x7b\"letter\": \"C\", \"text\": \"Opção C\"\x7d, \x7b\"letter\": \"D\", \"text\": \"Opção D\"\x7d, \x7b\"letter\": \"E\", \"text\": \"Opção E\"\x7d], \"correct_alternative\": \"C\", \"rationale\": \"A alternativa C decorre diretamente da definição da função.\", \"summary\": \"Questão sobre funções.\", \"keywords\": [\"funções\", \"gráficos\"]\x7d"

/-- A payload whose correct_alternative (F) matches none of the five option
letters A..E. -/
def cexJson : String :=
  "\x7b\"title\": \"Questão\", \"context\": \"Enunciado.\", \"alternatives\": [\x7b\"letter\": \"A\", \"text\": \"Opção A\"\x7d, \x7b\"letter\": \"B\", \"text\": \"Opção B\"\x7d, \x7b\"letter\": \"C\", \"text\": \"Opção C\"\x7d, \x7b\"letter\": \"D\", \"text\": \"Opção D\"\x7d, \x7b\"letter\": \"E\", \"text\": \"Opção E\"\x7d], \"correct_alternative\": \"F\", \"rationale\": \"Justificativa.\"\x7d"

def fallbackDraft : GeneratedQuestionData :=
  { title := "t", context := "c", alternatives_introduction := none, alternatives := [],
    correct_alternative := "A", rationale := "r", summary := none, keywords := none }

/-- The draft parsed from demoJson (the fallback arm is dead). -/
def demoDraft : GeneratedQuestionData :=
  match parseGeneratedQuestion demoJson with
  | .ok q => q
  | .error _ => fallbackDraft

/-- The draft parsed from cexJson (the fallback arm is dead). -/
def cexDraft : GeneratedQuestionData :=
  match parseGeneratedQuestion cexJson with
  | .ok q => q
  | .error _ => fallbackDraft

def demoSource : Question :=
  { id := "64b0c8a9f1d2e3a4b5c6d7e8", title := "Funções", index := 10,
    discipline := .matematica, language := some "pt", year := 2020,
    context := some "Contexto original.", correctAlternative := "B",
    alternativesIntroduction := none, alternatives := [], summary := none,
    keywords := some ["funções", "gráficos"], questionTopics := some ["t1", "t2"] }

/-- Environment of a fully successful run. -/
def successEnv : WorkflowEnv :=
  { search_tool_available := true,
    search_results :=
      fun _ => .ok "Resultados recentes e relevantes sobre funções e gráficos para 2024.",
    generation_llm := .ok demoJson,
    validation_llm := .ok "APROVADO",
    refinement_llm := fun _ => .ok "",
    current_year := 2024 }

/-- Same environment but the search returns an empty result (Scenario B). -/
def researchFailEnv : WorkflowEnv :=
  { successEnv with search_results := fun _ => .ok "" }

/-- Empty search result and a failing generation completion call. -/
def genFailEnv : WorkflowEnv :=
  { researchFailEnv with generation_llm := .error "Erro Groq 500" }

/-- Successful generation but the validation completion call raises. -/
def valFailEnv : WorkflowEnv :=
  { successEnv with validation_llm := .error "Timeout na requisição para Groq" }

def fallbackCreate : GeneratedQuestionCreate :=
  { title := "t", index := 1, discipline := .matematica, language := none, year := 2024,
    context := none, correctAlternative := "A", alternativesIntroduction := none,
    alternatives := [], summary := none, keywords := none, questionTopics := none,
    user := "u", rationale := "r", source_question_id := "s" }

/-- The record produced by the successful demo run (the fallback arm is dead). -/
def demoCreate : GeneratedQuestionCreate :=
  match generateQuestion successEnv demoSource [] "user123" 3 with
  | .success gq _ => gq
  | .failure _ => fallbackCreate

/-- A rotator over the two distinct credentials alpha and beta, exactly as
mkGroqTokenManager ["alpha", "beta"] produces it. -/
def demoMgr : GroqTokenManager :=
  { tokens := ["alpha", "beta"], cursor := 0, current_token := none,
    token_usage_count := [("alpha", 0), ("beta", 0)] }

/-- The manager built from the duplicated pool of Scenario C (the fallback arm
is dead). -/
def mgrOfList (l : List String) : GroqTokenManager :=
  match mkGroqTokenManager l with
  | .ok m => m
  | .error _ => { tokens := [], cursor := 0, current_token := none, token_usage_count := [] }

/-- Scenario D oracle: the completion call raises on attempts 0 and 1 and
succeeds on attempt 2. -/
def scenarioDOracle : Nat → String → Except String String :=
  fun attempt _ => if attempt < 2 then .error "ServiceError 429" else .ok "conteúdo"

/-- An always-failing completion oracle. -/
def alwaysFailOracle : Nat → String → Except String String :=
  fun _ _ => .error "Erro Groq 429: rate limit"

/-- The error text of alwaysFailOracle per attempt and credential. -/
def alwaysFailErr : Nat → String → String :=
  fun _ _ => "Erro Groq 429: rate limit"

/-! ## Helper lemmas: fence stripping and brace extraction (for C8) -/

theorem dropWhile_append_of_all (p : Char → Bool) (l m : List Char)
    (h : ∀ c ∈ l, p c = true) : (l ++ m).dropWhile p = m.dropWhile p := by
  induction l with
  | nil => rfl
  | cons c cs ih =>
    simp only [List.cons_append, List.dropWhile_cons]
    rw [h c (by simp)]
    simp only [ite_true]
    exact ih (fun c hc => h c (by simp [hc]))

theorem braceScan_no_brace (q : List Char) (hq : ∀ c ∈ q, c ≠ '{' ∧ c ≠ '}') :
    ∀ depth acc, braceScan q depth acc = [] := by
  induction q with
  | nil => intro depth acc; rfl
  | cons c cs ih =>
    intro depth acc
    have hc := hq c (by simp)
    simp only [braceScan, if_neg hc.1, if_neg hc.2]
    exact ih (fun x hx => hq x (by simp [hx])) depth (c :: acc)

theorem braceScan_append (r q : List Char) (hq : ∀ c ∈ q, c ≠ '{' ∧ c ≠ '}') :
    ∀ depth acc, braceScan (r ++ q) depth acc = braceScan r depth acc := by
  induction r with
  | nil =>
    intro depth acc
    simp only [List.nil_append]
    exact braceScan_no_brace q hq depth acc
  | cons c cs ih =>
    intro depth acc
    simp only [List.cons_append, braceScan]
    by_cases h1 : c = '{'
    · simp only [if_pos h1]
      exact ih depth.succ (c :: acc) ▸ ih (depth + 1) (c :: acc)
    · simp only [if_neg h1]
      by_cases h2 : c = '}'
      · simp only [if_pos h2]
        by_cases h3 : depth = 1
        · simp only [if_pos h3]
        · simp only [if_neg h3]
          exact ih (depth - 1) (c :: acc)
      · simp only [if_neg h2]
        exact ih depth (c :: acc)

theorem extractJson_dropFront (p s : List Char) (hp : ∀ c ∈ p, c ≠ '{') :
    extractJson (p ++ s) = extractJson s := by
  unfold extractJson
  rw [dropWhile_append_of_all _ p s (fun c hc => by simpa using hp c hc)]

theorem dropWhile_eq_nil_of_all (p : Char → Bool) (l : List Char)
    (h : ∀ c ∈ l, p c = true) : l.dropWhile p = [] := by
  induction l with
  | nil => rfl
  | cons c cs ih =>
    simp only [List.dropWhile_cons]
    rw [h c (by simp)]
    simp only [ite_true]
    exact ih (fun x hx => h x (by simp [hx]))

theorem dropWhile_append_of_ne_nil (p : Char → Bool) (l m : List Char)
    (h : l.dropWhile p ≠ []) : (l ++ m).dropWhile p = l.dropWhile p ++ m := by
  induction l with
  | nil => simp at h
  | cons c cs ih =>
    simp only [List.cons_append, List.dropWhile_cons]
    by_cases hc : p c = true
    · rw [hc]
      simp only [ite_true]
      simp only [List.dropWhile_cons, hc, ite_true] at h
      exact ih h
    · have hc2 : p c = false := by simpa using hc
      rw [hc2]
      simp only [Bool.false_eq_true, ite_false]
      rfl

theorem extractJson_drop_suffix (s q : List Char) (hq : ∀ c ∈ q, c ≠ '{' ∧ c ≠ '}') :
    extractJson (s ++ q) = extractJson s := by
  unfold extractJson
  by_cases h : s.dropWhile (fun c => c ≠ '{') = []
  · rw [h]
    have hq2 : (s ++ q).dropWhile (fun c => c ≠ '{') = [] := by
      have : (s ++ q).dropWhile (fun c => c ≠ '{') = q.dropWhile (fun c => c ≠ '{') := by
        induction s with
        | nil => rfl
        | cons c cs ih =>
          by_cases hc : c = '{'
          · subst hc
            simp at h
          · have hd : (decide (c ≠ '{')) = true := by simp [hc]
            simp only [List.cons_append, List.dropWhile_cons, hd, ite_true]
            simp only [List.dropWhile_cons, hd, ite_true] at h
            exact ih h
      rw [this]
      exact dropWhile_eq_nil_of_all _ q (fun c hc => by simp [(hq c hc).1])
    rw [hq2]
  · rw [dropWhile_append_of_ne_nil _ s q h]
    cases hr : s.dropWhile (fun c => c ≠ '{') with
    | nil => exact absurd hr h
    | cons c r =>
      simp only [List.cons_append]
      rw [show braceScan (c :: (r ++ q)) 0 [] = braceScan ((c :: r) ++ q) 0 [] from rfl,
          braceScan_append (c :: r) q hq 0 []]

theorem char_isWhitespace_ne_braces (c : Char) (h : c.isWhitespace = true) :
    c ≠ '{' ∧ c ≠ '}' := by
  constructor
  · intro he; rw [he] at h; simp at h
  · intro he; rw [he] at h; simp at h

theorem extractJson_dropWhile_ws (s : List Char) :
    extractJson (s.dropWhile Char.isWhitespace) = extractJson s := by
  conv_rhs => rw [← List.takeWhile_append_dropWhile (p := Char.isWhitespace) (l := s)]
  rw [extractJson_dropFront]
  intro c hc
  exact (char_isWhitespace_ne_braces c (List.mem_takeWhile_imp hc)).1

theorem extractJson_pyStrip (s : List Char) :
    extractJson (pyStrip s) = extractJson s := by
  unfold pyStrip
  have hleft := extractJson_dropWhile_ws s
  set t := s.dropWhile Char.isWhitespace with ht
  rw [← hleft]
  have hsplit : t = (t.reverse.dropWhile Char.isWhitespace).reverse ++
      (t.reverse.takeWhile Char.isWhitespace).reverse := by
    conv_lhs => rw [← List.reverse_reverse t,
      ← List.takeWhile_append_dropWhile (p := Char.isWhitespace) (l := t.reverse)]
    rw [List.reverse_append]
  conv_rhs => rw [hsplit]
  rw [extractJson_drop_suffix]
  intro c hc
  rw [List.mem_reverse] at hc
  exact char_isWhitespace_ne_braces c (List.mem_takeWhile_imp hc)

theorem extractJson_cleanContent (cs : List Char) :
    extractJson (cleanContent cs) = extractJson cs := by
  unfold cleanContent
  rw [extractJson_pyStrip]
  set c1 := pyStrip cs with hc1
  have step2 : ∀ c2 : List Char,
      c2 = (if fenceJson.isPrefixOf c1 then c1.drop 7
            else if fencePlain.isPrefixOf c1 then c1.drop 3 else c1) →
      extractJson c2 = extractJson c1 := by
    intro c2 h2
    by_cases hj : fenceJson.isPrefixOf c1
    · rw [if_pos hj] at h2
      obtain ⟨t, ht⟩ := (List.isPrefixOf_iff_prefix.mp hj)
      have hdrop : c1.drop 7 = t := by
        rw [← ht, show (7 : Nat) = fenceJson.length from rfl, List.drop_left]
      rw [h2, hdrop, ← ht]
      exact (extractJson_dropFront fenceJson t (by decide)).symm
    · rw [if_neg hj] at h2
      by_cases hp : fencePlain.isPrefixOf c1
      · rw [if_pos hp] at h2
        obtain ⟨t, ht⟩ := (List.isPrefixOf_iff_prefix.mp hp)
        have hdrop : c1.drop 3 = t := by
          rw [← ht, show (3 : Nat) = fencePlain.length from rfl, List.drop_left]
        rw [h2, hdrop, ← ht]
        exact (extractJson_dropFront fencePlain t (by decide)).symm
      · rw [if_neg hp] at h2
        rw [h2]
  have step3 : ∀ c2 c3 : List Char,
      c3 = (if fencePlain.isSuffixOf c2 then c2.take (c2.length - 3) else c2) →
      extractJson c3 = extractJson c2 := by
    intro c2 c3 h3
    by_cases hs : fencePlain.isSuffixOf c2
    · rw [if_pos hs] at h3
      obtain ⟨t, ht⟩ := (List.isSuffixOf_iff_suffix.mp hs)
      have hlen : c2.length - 3 = t.length := by
        rw [← ht]
        simp [fencePlain]
      have htake : c2.take (c2.length - 3) = t := by
        rw [hlen, ← ht, List.take_left]
      rw [h3, htake, ← ht]
      exact (extractJson_drop_suffix t fencePlain (by decide)).symm
    · rw [if_neg hs] at h3
      rw [h3]
  rw [extractJson_pyStrip] at *
  exact (step3 _ _ rfl).trans (step2 _ rfl)

/-! ## Helper lemmas: credential rotation and the retry loop (for C6, C7) -/

theorem getNextToken_fst (m : GroqTokenManager) : (getNextToken m).1 = tokenAt m 0 := by
  simp [getNextToken, tokenAt]

theorem getNextToken_tokens (m : GroqTokenManager) : (getNextToken m).2.tokens = m.tokens := rfl

theorem getNextToken_cursor (m : GroqTokenManager) :
    (getNextToken m).2.cursor = m.cursor + 1 := rfl

theorem tokenAt_getNextToken (m : GroqTokenManager) (j : Nat) :
    tokenAt (getNextToken m).2 j = tokenAt m (j + 1) := by
  show m.tokens.getD ((m.cursor + 1 + j) % m.tokens.length) ""
      = m.tokens.getD ((m.cursor + (j + 1)) % m.tokens.length) ""
  have harith : m.cursor + 1 + j = m.cursor + (j + 1) := by omega
  rw [harith]

theorem consecTokens_succ (m : GroqTokenManager) (k : Nat) :
    consecTokens m (k + 1) = tokenAt m 0 :: consecTokens (getNextToken m).2 k := by
  unfold consecTokens
  rw [List.range_succ_eq_map]
  simp only [List.map_cons, List.map_map]
  congr 1
  apply List.map_congr_left
  intro j hj
  simp [Function.comp, tokenAt_getNextToken]

theorem consecTokens_length (m : GroqTokenManager) (k : Nat) :
    (consecTokens m k).length = k := by
  simp [consecTokens]

theorem consecTokens_one (m : GroqTokenManager) : consecTokens m 1 = [tokenAt m 0] := rfl

/-- Unfolding equation for one iteration of the retry loop. -/
theorem callLLMGo_succ (oracle : Nat → String → Except String String)
    (attempt r : Nat) (m : GroqTokenManager) (used : List String) :
    callLLMWithRetryGo oracle attempt (r + 1) m used
      = (match oracle attempt (getNextToken m).1 with
         | .ok content =>
           ({ outcome := some (.ok content), mgr := (getNextToken m).2,
              tokensUsed := used ++ [(getNextToken m).1] } : RetryResult)
         | .error e =>
           if r = 0 then
             { outcome := some (.error e), mgr := (getNextToken m).2,
               tokensUsed := used ++ [(getNextToken m).1] }
           else
             callLLMWithRetryGo oracle (attempt + 1) r (getNextToken m).2
               (used ++ [(getNextToken m).1])) := rfl

theorem callLLMGo_spec (oracle : Nat → String → Except String String) :
    ∀ (r attempt : Nat) (m : GroqTokenManager) (used : List String),
      ∃ k, k ≤ r ∧
        (callLLMWithRetryGo oracle attempt r m used).tokensUsed = used ++ consecTokens m k ∧
        (callLLMWithRetryGo oracle attempt r m used).mgr.cursor = m.cursor + k ∧
        (callLLMWithRetryGo oracle attempt r m used).mgr.tokens = m.tokens := by
  intro r
  induction r with
  | zero =>
    intro attempt m used
    exact ⟨0, by simp [callLLMWithRetryGo, consecTokens]⟩
  | succ r ih =>
    intro attempt m used
    rw [callLLMGo_succ]
    cases horacle : oracle attempt (getNextToken m).1 with
    | ok content =>
      dsimp only
      refine ⟨1, by omega, ?_, ?_, ?_⟩
      · rw [consecTokens_one, ← getNextToken_fst]
      · exact (getNextToken_cursor m)
      · exact (getNextToken_tokens m)
    | error e =>
      dsimp only
      by_cases hr : r = 0
      · subst hr
        rw [if_pos rfl]
        refine ⟨1, by omega, ?_, ?_, ?_⟩
        · rw [consecTokens_one, ← getNextToken_fst]
        · exact (getNextToken_cursor m)
        · exact (getNextToken_tokens m)
      · simp only [if_neg hr]
        obtain ⟨k, hk, hused, hcursor, htokens⟩ :=
          ih (attempt + 1) (getNextToken m).2 (used ++ [(getNextToken m).1])
        refine ⟨k + 1, by omega, ?_, ?_, ?_⟩
        · rw [hused, consecTokens_succ, getNextToken_fst]
          simp
        · rw [hcursor, getNextToken_cursor]
          omega
        · rw [htokens, getNextToken_tokens]

theorem callLLMGo_allfail (oracle : Nat → String → Except String String)
    (err : Nat → String → String) (hf : ∀ j t, oracle j t = .error (err j t)) :
    ∀ r, 1 ≤ r → ∀ (attempt : Nat) (m : GroqTokenManager) (used : List String),
      (callLLMWithRetryGo oracle attempt r m used).tokensUsed = used ++ consecTokens m r
      ∧ (callLLMWithRetryGo oracle attempt r m used).outcome
          = some (.error (err (attempt + (r - 1)) (tokenAt m (r - 1)))) := by
  intro r
  induction r with
  | zero => intro h; exact absurd h (by decide)
  | succ r ih =>
    intro _ attempt m used
    rw [callLLMGo_succ, hf attempt (getNextToken m).1]
    dsimp only
    by_cases hr : r = 0
    · subst hr
      rw [if_pos rfl]
      constructor
      · rw [consecTokens_one, ← getNextToken_fst]
      · rw [getNextToken_fst]
        simp
    · rw [if_neg hr]
      obtain ⟨hu, ho⟩ := ih (by omega) (attempt + 1) (getNextToken m).2 (used ++ [(getNextToken m).1])
      constructor
      · rw [hu, consecTokens_succ, getNextToken_fst]
        simp
      · rw [ho, tokenAt_getNextToken]
        have ha : attempt + 1 + (r - 1) = attempt + (r + 1 - 1) := by omega
        have hb : r - 1 + 1 = r + 1 - 1 := by omega
        rw [ha, hb]

theorem nodup_getD_ne (l : List String) (hnd : l.Nodup) (i j : Nat)
    (hi : i < l.length) (hj : j < l.length) (hij : i ≠ j) :
    l.getD i "" ≠ l.getD j "" := by
  rw [List.getD_eq_getElem l "" hi, List.getD_eq_getElem l "" hj]
  intro he
  exact hij (List.Nodup.getElem_inj_iff hnd |>.mp he)

theorem tokenAt_ne_succ (m : GroqTokenManager) (hnd : m.tokens.Nodup)
    (h2 : 2 ≤ m.tokens.length) (j : Nat) : tokenAt m j ≠ tokenAt m (j + 1) := by
  unfold tokenAt
  have hn : 0 < m.tokens.length := by omega
  apply nodup_getD_ne m.tokens hnd _ _ (Nat.mod_lt _ hn) (Nat.mod_lt _ hn)
  intro he
  have hmod : Nat.ModEq m.tokens.length (m.cursor + j) (m.cursor + j + 1) := he
  have hdvd := (Nat.modEq_iff_dvd' (Nat.le_succ _)).mp hmod
  have hsub : m.cursor + j + 1 - (m.cursor + j) = 1 := by omega
  rw [hsub] at hdvd
  have := Nat.le_of_dvd (by omega) hdvd
  omega

theorem consecTokens_chain (m : GroqTokenManager) (hnd : m.tokens.Nodup)
    (h2 : 2 ≤ m.tokens.length) (k : Nat) :
    List.Chain' (fun a b => a ≠ b) (consecTokens m k) := by
  rw [List.chain'_iff_get]
  intro i hi
  rw [consecTokens_length] at hi
  unfold consecTokens
  simp only [List.get_eq_getElem, List.getElem_map, List.getElem_range]
  exact tokenAt_ne_succ m hnd h2 i

/-! ## Helper lemmas: draft parsing flags (for C2) -/

theorem except_bind_ok {α β : Type} (x : Except String α) (f : α → Except String β) (b : β) :
    (x >>= f) = .ok b ↔ ∃ a, x = .ok a ∧ f a = .ok b := by
  cases x with
  | ok a => simp [Bind.bind, Except.bind]
  | error e => simp [Bind.bind, Except.bind]

theorem mkAlternativeCreate_ok (letter text : String) (b : Bool) (alt : AlternativeCreate)
    (h : mkAlternativeCreate letter text b = .ok alt) :
    alt.letter = letter ∧ alt.isCorrect = b := by
  unfold mkAlternativeCreate at h
  split_ifs at h
  injection h with h2
  subst h2
  exact ⟨rfl, rfl⟩

theorem buildAlternatives_mem (c : String) :
    ∀ (xs : List JsonValue) (res : List AlternativeCreate),
      buildAlternatives c xs = .ok res →
      ∀ a ∈ res, (a.isCorrect = true ↔ upperStr a.letter = c) := by
  intro xs
  induction xs with
  | nil =>
    intro res h a ha
    injection h with h2
    subst h2
    simp at ha
  | cons x xs ih =>
    intro res h a ha
    rw [show buildAlternatives c (x :: xs)
        = (jsonStrKey x "letter" >>= fun letter =>
            jsonStrKey x "text" >>= fun text =>
              mkAlternativeCreate letter text (upperStr letter = c) >>= fun alt =>
                buildAlternatives c xs >>= fun alts =>
                  pure (alt :: alts)) from rfl] at h
    obtain ⟨letter, hl, h⟩ := (except_bind_ok _ _ _).mp h
    obtain ⟨text, htx, h⟩ := (except_bind_ok _ _ _).mp h
    obtain ⟨alt, halt, h⟩ := (except_bind_ok _ _ _).mp h
    obtain ⟨alts, halts, h⟩ := (except_bind_ok _ _ _).mp h
    injection h with h2
    subst h2
    obtain ⟨haletter, hacorr⟩ := mkAlternativeCreate_ok _ _ _ _ halt
    rcases List.mem_cons.mp ha with rfl | hmem
    · rw [hacorr, haletter]
      constructor
      · intro hd
        exact of_decide_eq_true hd
      · intro hd
        exact decide_eq_true hd
    · exact ih alts halts a hmem

theorem filter_eq_nil_of_none (l : List AlternativeCreate)
    (h : ∀ a ∈ l, a.isCorrect = false) : l.filter (fun a => a.isCorrect) = [] := by
  induction l with
  | nil => rfl
  | cons a l ih =>
    rw [List.filter_cons_of_neg (by simp [h a (by simp)])]
    exact ih (fun x hx => h x (by simp [hx]))

theorem filter_flag_length_one (c : String) (l : List AlternativeCreate)
    (hflag : ∀ a ∈ l, (a.isCorrect = true ↔ upperStr a.letter = c))
    (hnd : (l.map (fun a => upperStr a.letter)).Nodup)
    (hmem : c ∈ l.map (fun a => upperStr a.letter)) :
    (l.filter (fun a => a.isCorrect)).length = 1 := by
  induction l with
  | nil => simp at hmem
  | cons a l ih =>
    rw [List.map_cons] at hnd hmem
    have hha := hflag a (by simp)
    by_cases hac : upperStr a.letter = c
    · have hcorr : a.isCorrect = true := hha.mpr hac
      rw [List.filter_cons_of_pos (by simp [hcorr])]
      have hnil : l.filter (fun x => x.isCorrect) = [] := by
        apply filter_eq_nil_of_none
        intro b hb
        cases hbc : b.isCorrect with
        | false => rfl
        | true =>
          have hbl : upperStr b.letter = c := (hflag b (by simp [hb])).mp hbc
          have hnotin : upperStr a.letter ∉ l.map (fun x => upperStr x.letter) :=
            (List.nodup_cons.mp hnd).1
          rw [hac] at hnotin
          have hcin : c ∈ l.map (fun x => upperStr x.letter) := by
            rw [← hbl]
            exact List.mem_map_of_mem (fun x => upperStr x.letter) hb
          exact absurd hcin hnotin
      rw [hnil]
      rfl
    · have hcorr : a.isCorrect = false := by
        cases hb : a.isCorrect with
        | false => rfl
        | true => exact absurd (hha.mp hb) hac
      rw [List.filter_cons_of_neg (by simp [hcorr])]
      apply ih (fun x hx => hflag x (by simp [hx])) (List.nodup_cons.mp hnd).2
      rcases List.mem_cons.mp hmem with h1 | h2
      · exact absurd h1.symm hac
      · exact h2

theorem materializeDraft_alternatives (v : JsonValue) (q : GeneratedQuestionData)
    (h : materializeDraft v = .ok q) :
    ∃ altsJson, buildAlternatives (upperStr q.correct_alternative) altsJson = .ok q.alternatives := by
  unfold materializeDraft at h
  obtain ⟨correctRaw, hc, h⟩ := (except_bind_ok _ _ _).mp h
  obtain ⟨altsJson, haj, h⟩ := (except_bind_ok _ _ _).mp h
  obtain ⟨alternatives, halts, h⟩ := (except_bind_ok _ _ _).mp h
  obtain ⟨title, ht, h⟩ := (except_bind_ok _ _ _).mp h
  obtain ⟨context, hcx, h⟩ := (except_bind_ok _ _ _).mp h
  obtain ⟨intro, hi, h⟩ := (except_bind_ok _ _ _).mp h
  obtain ⟨rationale, hr, h⟩ := (except_bind_ok _ _ _).mp h
  obtain ⟨summary, hs, h⟩ := (except_bind_ok _ _ _).mp h
  obtain ⟨keywords, hk, h⟩ := (except_bind_ok _ _ _).mp h
  injection h with h2
  subst h2
  exact ⟨altsJson, halts⟩

theorem parseCore_flag (cs : List Char) (q : GeneratedQuestionData)
    (h : parseGeneratedQuestionCore cs = .ok q) :
    ∀ a ∈ q.alternatives,
      (a.isCorrect = true ↔ upperStr a.letter = upperStr q.correct_alternative) := by
  unfold parseGeneratedQuestionCore at h
  obtain ⟨js, hjs, h⟩ := (except_bind_ok _ _ _).mp h
  obtain ⟨v, hv, h⟩ := (except_bind_ok _ _ _).mp h
  obtain ⟨altsJson, halts⟩ := materializeDraft_alternatives v q h
  exact buildAlternatives_mem _ altsJson q.alternatives halts

/-! ## Helper lemmas: record construction (for C9) -/

theorem mkCreate_ok_fields (env : WorkflowEnv) (sq : Question) (uid : String)
    (gd : GeneratedQuestionData) (gq : GeneratedQuestionCreate)
    (h : mkGeneratedQuestionCreate env sq uid gd = .ok gq) :
    gq.alternatives = gd.alternatives ∧ gd.alternatives.length = 5 := by
  unfold mkGeneratedQuestionCreate at h
  split_ifs at h with h1 h2 h3 h4 h5 h6 h7
  injection h with h8
  subst h8
  refine ⟨rfl, ?_⟩
  push_neg at h6
  exact h6

/-! ## Helper lemmas: the graph run (for C1, C4, C5, C9, C10) -/

theorem routeValidation_endNode (s : QuestionGenerationState) :
    routeAfterValidation (decideAfterValidation s) = .endNode := by
  unfold routeAfterValidation decideAfterValidation
  cases s.generated_question <;> rfl

theorem stepValidation_endNode (env : WorkflowEnv) (s : QuestionGenerationState) :
    (stepGraph env .validation s).1 = .endNode :=
  routeValidation_endNode (validateQuestionNode env s)

theorem runGraph_zero (env : WorkflowEnv) (n : GraphNode) (s : QuestionGenerationState)
    (refs : Nat) : runGraph env 0 n s refs = (n, s, refs) := rfl

theorem runGraph_succ (env : WorkflowEnv) (f : Nat) (n : GraphNode)
    (s : QuestionGenerationState) (refs : Nat) :
    runGraph env (f + 1) n s refs
      = (if n = .endNode then (.endNode, s, refs)
         else runGraph env f (stepGraph env n s).1 (stepGraph env n s).2
           (if n = .refinement then refs + 1 else refs)) := rfl

theorem runGraph_endNode_eq (env : WorkflowEnv) :
    ∀ (fuel : Nat) (s : QuestionGenerationState) (refs : Nat),
      runGraph env fuel .endNode s refs = (.endNode, s, refs) := by
  intro fuel s refs
  cases fuel with
  | zero => rfl
  | succ f => rw [runGraph_succ, if_pos rfl]

theorem run25_research (env : WorkflowEnv) (s : QuestionGenerationState) :
    runGraph env 25 .research s 0
      = (.endNode,
         validateQuestionNode env (generateQuestionNode env (researchContextNode env s)), 0) := by
  have e1 : (25 : Nat) = 24 + 1 := rfl
  have e2 : (24 : Nat) = 23 + 1 := rfl
  have e3 : (23 : Nat) = 22 + 1 := rfl
  rw [e1, runGraph_succ, if_neg (by decide)]
  dsimp only [stepGraph]
  rw [if_neg (by decide), e2, runGraph_succ, if_neg (by decide)]
  dsimp only [stepGraph]
  rw [if_neg (by decide), e3, runGraph_succ, if_neg (by decide)]
  dsimp only [stepGraph]
  rw [if_neg (by decide), routeValidation_endNode, runGraph_endNode_eq]

theorem runGraph_refs_zero (env : WorkflowEnv) :
    ∀ (fuel : Nat) (n : GraphNode) (s : QuestionGenerationState) (refs : Nat),
      (n = .research ∨ n = .generation ∨ n = .validation ∨ n = .endNode) →
      (runGraph env fuel n s refs).2.2 = refs := by
  intro fuel
  induction fuel with
  | zero => intro n s refs hlin; rfl
  | succ fuel ih =>
    intro n s refs hlin
    rcases hlin with h | h | h | h <;> subst h
    · rw [runGraph_succ, if_neg (by decide)]
      dsimp only [stepGraph]
      rw [if_neg (by decide)]
      exact ih .generation (researchContextNode env s) refs (Or.inr (Or.inl rfl))
    · rw [runGraph_succ, if_neg (by decide)]
      dsimp only [stepGraph]
      rw [if_neg (by decide)]
      exact ih .validation (generateQuestionNode env s) refs (Or.inr (Or.inr (Or.inl rfl)))
    · rw [runGraph_succ, if_neg (by decide)]
      dsimp only [stepGraph]
      rw [if_neg (by decide), routeValidation_endNode]
      exact ih .endNode (validateQuestionNode env s) refs (Or.inr (Or.inr (Or.inr rfl)))
    · rw [runGraph_succ, if_pos rfl]

theorem str_append_ne_empty (s t : String) (h : s ≠ "") : s ++ t ≠ "" := by
  intro he
  apply h
  have hd : s.data ++ t.data = [] := by
    have h2 := congrArg String.data he
    rwa [String.data_append] at h2
  have hs : s.data = [] := by
    cases hds : s.data with
    | nil => rfl
    | cons a l => rw [hds] at hd; simp at hd
  cases s with
  | mk d =>
    simp only [String.data] at hs
    rw [show ("" : String) = String.mk [] from rfl, hs]

theorem researchNode_err_eq (env : WorkflowEnv) (s : QuestionGenerationState) (e : String)
    (h : searchInternet env (buildSearchQuery env s.source_question) = .error e) :
    researchContextNode env s
      = { s with stage := .failed,
                 error_message :=
                   some ("Erro na pesquisa de contexto: " ++ ("Falha na busca online: " ++ e)) } := by
  unfold researchContextNode
  rw [h]

theorem researchNode_ok_eq (env : WorkflowEnv) (s : QuestionGenerationState) (r : String)
    (h : searchInternet env (buildSearchQuery env s.source_question) = .ok r) :
    researchContextNode env s
      = { s with stage := .context_research,
                 context_research :=
                   contextResearchText (buildSearchQuery env s.source_question) r
                     s.source_question,
                 messages := s.messages ++ ["Pesquisa de contexto concluída com sucesso."] } := by
  unfold researchContextNode
  rw [h]

theorem generateNode_err_eq (env : WorkflowEnv) (s : QuestionGenerationState) (e : String)
    (hg : env.generation_llm = .error e) :
    generateQuestionNode env s
      = { s with stage := .failed,
                 error_message := some ("Erro na geração da questão: " ++ e) } := by
  unfold generateQuestionNode
  rw [hg]

theorem generateNode_perr_eq (env : WorkflowEnv) (s : QuestionGenerationState)
    (c e : String) (hg : env.generation_llm = .ok c)
    (hp : parseGeneratedQuestion c = .error e) :
    generateQuestionNode env s
      = { s with stage := .failed,
                 error_message := some ("Erro na geração da questão: " ++ e) } := by
  unfold generateQuestionNode
  rw [hg]
  dsimp only
  rw [hp]

theorem generateNode_ok_eq (env : WorkflowEnv) (s : QuestionGenerationState)
    (c : String) (q : GeneratedQuestionData)
    (hg : env.generation_llm = .ok c) (hp : parseGeneratedQuestion c = .ok q) :
    generateQuestionNode env s
      = { s with stage := .generation, generated_question := some q,
                 messages := s.messages ++ ["Questão gerada com sucesso."] } := by
  unfold generateQuestionNode
  rw [hg]
  dsimp only
  rw [hp]

theorem validateNode_none_eq (env : WorkflowEnv) (s : QuestionGenerationState)
    (h : s.generated_question = none) :
    validateQuestionNode env s
      = { s with stage := .failed,
                 error_message := some "Nenhuma questão foi gerada para validar" } := by
  unfold validateQuestionNode
  rw [h]

theorem validateNode_err_eq (env : WorkflowEnv) (s : QuestionGenerationState)
    (g : GeneratedQuestionData) (e : String)
    (hgq : s.generated_question = some g) (hv : env.validation_llm = .error e) :
    validateQuestionNode env s
      = { s with stage := .failed,
                 error_message := some ("Erro na validação da questão: " ++ e) } := by
  unfold validateQuestionNode
  rw [hgq]
  dsimp only
  rw [hv]

theorem validateNode_ok_eq (env : WorkflowEnv) (s : QuestionGenerationState)
    (g : GeneratedQuestionData) (fb : String)
    (hgq : s.generated_question = some g) (hv : env.validation_llm = .ok fb) :
    validateQuestionNode env s
      = { s with stage := .validation, validation_feedback := fb,
                 messages := s.messages ++ ["Validação da questão concluída."] } := by
  unfold validateQuestionNode
  rw [hgq]
  dsimp only
  rw [hv]

theorem research_gq (env : WorkflowEnv) (s : QuestionGenerationState) :
    (researchContextNode env s).generated_question = s.generated_question := by
  cases h : searchInternet env (buildSearchQuery env s.source_question) with
  | error e => rw [researchNode_err_eq env s e h]
  | ok r => rw [researchNode_ok_eq env s r h]

theorem researchNode_err (env : WorkflowEnv) (s : QuestionGenerationState)
    (hs : ∀ msg, s.error_message = some msg → msg ≠ "") :
    ∀ msg, (researchContextNode env s).error_message = some msg → msg ≠ "" := by
  intro msg hmsg
  cases h : searchInternet env (buildSearchQuery env s.source_question) with
  | error e =>
    rw [researchNode_err_eq env s e h] at hmsg
    injection hmsg with h2
    subst h2
    exact str_append_ne_empty _ _ (by decide)
  | ok r =>
    rw [researchNode_ok_eq env s r h] at hmsg
    exact hs msg hmsg

theorem generateNode_err (env : WorkflowEnv) (s : QuestionGenerationState)
    (hs : ∀ msg, s.error_message = some msg → msg ≠ "") :
    ∀ msg, (generateQuestionNode env s).error_message = some msg → msg ≠ "" := by
  intro msg hmsg
  cases hg : env.generation_llm with
  | error e =>
    rw [generateNode_err_eq env s e hg] at hmsg
    injection hmsg with h2
    subst h2
    exact str_append_ne_empty _ _ (by decide)
  | ok content =>
    cases hp : parseGeneratedQuestion content with
    | error e =>
      rw [generateNode_perr_eq env s content e hg hp] at hmsg
      injection hmsg with h2
      subst h2
      exact str_append_ne_empty _ _ (by decide)
    | ok q =>
      rw [generateNode_ok_eq env s content q hg hp] at hmsg
      exact hs msg hmsg

theorem validateNode_err (env : WorkflowEnv) (s : QuestionGenerationState)
    (hs : ∀ msg, s.error_message = some msg → msg ≠ "") :
    ∀ msg, (validateQuestionNode env s).error_message = some msg → msg ≠ "" := by
  intro msg hmsg
  cases hgq : s.generated_question with
  | none =>
    rw [validateNode_none_eq env s hgq] at hmsg
    injection hmsg with h2
    subst h2
    decide
  | some g =>
    cases hv : env.validation_llm with
    | error e =>
      rw [validateNode_err_eq env s g e hgq hv] at hmsg
      injection hmsg with h2
      subst h2
      exact str_append_ne_empty _ _ (by decide)
    | ok fb =>
      rw [validateNode_ok_eq env s g fb hgq hv] at hmsg
      exact hs msg hmsg

theorem serviceResult_failure_ne (env : WorkflowEnv) (sq : Question) (uid : String)
    (fin : QuestionGenerationState)
    (hfin : ∀ msg, fin.error_message = some msg → msg ≠ "") :
    ∀ e, serviceResult env sq uid fin = .failure e → e ≠ "" := by
  intro e h
  unfold serviceResult at h
  by_cases hst : fin.stage = .failed
  · rw [if_pos hst] at h
    injection h with h2
    subst h2
    cases hem : fin.error_message with
    | none => decide
    | some msg =>
      rw [Option.getD_some]
      exact hfin msg hem
  · rw [if_neg hst] at h
    cases hgq : fin.generated_question with
    | none =>
      rw [hgq] at h
      dsimp only at h
      injection h with h2
      subst h2
      decide
    | some gd =>
      rw [hgq] at h
      dsimp only at h
      cases hmk : mkGeneratedQuestionCreate env sq uid gd with
      | ok gq =>
        rw [hmk] at h
        exact GenResult.noConfusion h
      | error e2 =>
        rw [hmk] at h
        injection h with h2
        subst h2
        exact str_append_ne_empty _ _ (by decide)

theorem uniqueKeys_loop_nodup :
    ∀ (l acc : List String), acc.Nodup →
      (l.foldl (fun acc t => if t ∈ acc then acc else acc ++ [t]) acc).Nodup := by
  intro l
  induction l with
  | nil => intro acc h; exact h
  | cons t l ih =>
    intro acc h
    rw [List.foldl_cons]
    by_cases hm : t ∈ acc
    · rw [if_pos hm]
      exact ih acc h
    · rw [if_neg hm]
      apply ih
      refine List.Nodup.append h (List.nodup_singleton t) ?_
      intro a ha hat
      rw [List.mem_singleton] at hat
      subst hat
      exact hm ha

theorem uniqueKeys_nodup (l : List String) : (uniqueKeys l).Nodup :=
  uniqueKeys_loop_nodup l [] List.nodup_nil

/-! ## Claim theorems -/

/-- C1: for every terminating run, the transition taken after the validation
stage depends only on whether a draft is present — a present draft makes
`_decide_after_validation` return "complete", an absent one "fail"; the
decision is invariant under any change of the validation feedback text; and
both labels edge the graph to END, so validation is always followed by a
terminal transition (never by refinement). -/
theorem c1_decide_after_validation :
    (∀ s : QuestionGenerationState,
        decideAfterValidation s
          = (if s.generated_question.isSome then "complete" else "fail"))
    ∧ (∀ (s : QuestionGenerationState) (fb : String),
        decideAfterValidation { s with validation_feedback := fb }
          = decideAfterValidation s)
    ∧ (∀ (env : WorkflowEnv) (s : QuestionGenerationState),
        (stepGraph env .validation s).1 = .endNode) := by
  refine ⟨?_, ?_, ?_⟩
  · intro s
    unfold decideAfterValidation
    cases s.generated_question <;> rfl
  · intro s fb
    rfl
  · intro env s
    exact stepValidation_endNode env s

/-- C2 (amended): a successfully parsed draft flags an option correct exactly
when its uppercased letter equals the uppercased correct_alternative; in
particular, when the uppercased option letters are distinct and include the
uppercased correct_alternative, exactly one option is flagged correct.  (The
parser itself does not enforce that a match exists, nor that there are 5
options — see the counterexample.) -/
theorem c2_parse_flags :
    ∀ (s : String) (q : GeneratedQuestionData), parseGeneratedQuestion s = .ok q →
      (∀ a ∈ q.alternatives,
          (a.isCorrect = true ↔ upperStr a.letter = upperStr q.correct_alternative))
      ∧ ((q.alternatives.map (fun a => upperStr a.letter)).Nodup →
          upperStr q.correct_alternative ∈ q.alternatives.map (fun a => upperStr a.letter) →
          (q.alternatives.filter (fun a => a.isCorrect)).length = 1) := by
  intro s q h
  have hflag := parseCore_flag s.data q h
  exact ⟨hflag, fun hnd hmem => filter_flag_length_one _ _ hflag hnd hmem⟩

set_option maxRecDepth 16384 in
/-- C2 witness: the demo payload (letters A..E, correct C) parses to a draft
with exactly one correct option. -/
theorem c2_witness : (demoDraft.alternatives.filter (fun a => a.isCorrect)).length = 1 :=
  (c2_parse_flags demoJson demoDraft (by rfl)).2 (by decide) (by decide)

set_option maxRecDepth 16384 in
/-- C2 counterexample: the payload with correct_alternative "F" parses
successfully into a draft with 5 options none of which is flagged correct, so
"exactly one of its 5 options has isCorrect=true" fails. -/
theorem c2_counterexample :
    parseGeneratedQuestion cexJson = .ok cexDraft
    ∧ cexDraft.alternatives.length = 5
    ∧ (cexDraft.alternatives.filter (fun a => a.isCorrect)).length = 0
    ∧ cexDraft.correct_alternative = "F" :=
  ⟨rfl, rfl, rfl, rfl⟩

/-- C3 (amended): GroqTokenManager's constructor does not deduplicate — the
reported total equals the number of stripped non-empty entries, duplicates
included; order-preserving deduplication happens upstream, in
Settings.get_groq_tokens, whose output never contains duplicates. -/
theorem c3_rotator_pool :
    (∀ (l : List String) (m : GroqTokenManager),
        mkGroqTokenManager l = .ok m →
        (getTokenStats m).total_tokens
          = ((l.map pyStripStr).filter (fun t => t ≠ "")).length)
    ∧ (∀ (api_key api_tokens : Option String), (getGroqTokens api_key api_tokens).Nodup) := by
  constructor
  · intro l m h
    unfold mkGroqTokenManager at h
    split_ifs at h with h1 h2
    injection h with h3
    subst h3
    rfl
  · intro api_key api_tokens
    unfold getGroqTokens
    exact uniqueKeys_nodup _

/-- C3 witness: instantiation of the amended claim at the Scenario C pool
["a", "a", "b"] (stats report 3 entries, the length of the undeduplicated
list). -/
theorem c3_witness :
    (getTokenStats (mgrOfList ["a", "a", "b"])).total_tokens
      = (((["a", "a", "b"] : List String).map pyStripStr).filter (fun t => t ≠ "")).length :=
  c3_rotator_pool.1 ["a", "a", "b"] (mgrOfList ["a", "a", "b"]) rfl

/-- C3 counterexample: the rotator built from ["a", "a", "b"] reports
total_credentials 3, not the 2 the claim expects. -/
theorem c3_counterexample :
    mkGroqTokenManager ["a", "a", "b"] = .ok (mgrOfList ["a", "a", "b"])
    ∧ (getTokenStats (mgrOfList ["a", "a", "b"])).total_tokens = 3
    ∧ (getTokenStats (mgrOfList ["a", "a", "b"])).total_tokens ≠ 2 :=
  ⟨rfl, rfl, by decide⟩

/-- C4 (amended): generate never raises — every failure is returned as
\x7bsuccess: false, error\x7d with a non-empty error string; but a research
failure does not by itself terminate the workflow (the research→generation
edge is unconditional), so an empty search result does not guarantee a failed
result, and when generation then fails the validation node overwrites the
recorded message, making the returned error the draft-missing text — never one
mentioning the research/search failure. -/
theorem c4_failure_shape :
    (∀ (env : WorkflowEnv) (sq : Question) (sim : List Question) (uid : String)
        (mr : Nat) (e : String),
        generateQuestion env sq sim uid mr = .failure e → e ≠ "")
    ∧ (∀ (env : WorkflowEnv) (sq : Question) (sim : List Question) (uid : String)
        (mr : Nat) (eg : String),
        env.generation_llm = .error eg →
        generateQuestion env sq sim uid mr
          = .failure "Nenhuma questão foi gerada para validar") := by
  constructor
  · intro env sq sim uid mr e h
    unfold generateQuestion at h
    rw [run25_research] at h
    refine serviceResult_failure_ne env sq uid _ ?_ e h
    apply validateNode_err
    apply generateNode_err
    apply researchNode_err
    intro msg hmsg
    exact Option.noConfusion hmsg
  · intro env sq sim uid mr eg hg
    have hgq1 : (researchContextNode env (initialState sq sim uid mr)).generated_question
        = none := by
      rw [research_gq]
      rfl
    have h2 : generateQuestionNode env (researchContextNode env (initialState sq sim uid mr))
        = { researchContextNode env (initialState sq sim uid mr) with
            stage := .failed,
            error_message := some ("Erro na geração da questão: " ++ eg) } :=
      generateNode_err_eq env _ eg hg
    have hgq2 : (generateQuestionNode env
        (researchContextNode env (initialState sq sim uid mr))).generated_question = none := by
      rw [h2]
      exact hgq1
    have h3 : validateQuestionNode env (generateQuestionNode env
          (researchContextNode env (initialState sq sim uid mr)))
        = { generateQuestionNode env (researchContextNode env (initialState sq sim uid mr)) with
            stage := .failed,
            error_message := some "Nenhuma questão foi gerada para validar" } :=
      validateNode_none_eq env _ hgq2
    unfold generateQuestion
    rw [run25_research, h3]
    unfold serviceResult
    rw [if_pos rfl]
    rfl

/-- C4 witness: instantiation of the amended claim — with a failing generation
call (after the empty search of Scenario B) the service returns the
draft-missing error, which is non-empty. -/
theorem c4_witness :
    generateQuestion genFailEnv demoSource [] "user123" 3
        = .failure "Nenhuma questão foi gerada para validar"
    ∧ "Nenhuma questão foi gerada para validar" ≠ "" :=
  ⟨c4_failure_shape.2 genFailEnv demoSource [] "user123" 3 "Erro Groq 500" rfl,
   c4_failure_shape.1 genFailEnv demoSource [] "user123" 3
     "Nenhuma questão foi gerada para validar" (by rfl)⟩

set_option maxRecDepth 16384 in
/-- C4 counterexample: with the Scenario B environment (search returns the
empty string, so the research stage fails) a run whose generation and
validation calls succeed returns success — not \x7bsuccess: false\x7d with an
error mentioning the research/search failure. -/
theorem c4_counterexample :
    (researchContextNode researchFailEnv (initialState demoSource [] "user123" 3)).stage
        = QuestionGenerationStage.failed
    ∧ (generateQuestion researchFailEnv demoSource [] "user123" 3).isSuccess = true :=
  ⟨rfl, rfl⟩

/-- C5: `_decide_after_refinement` sends the workflow back to validation
exactly while refinement_count is below max_refinements and to the terminal
edge once the ceiling is reached; the refinement node edges to validation_node
under the first label and to END under the second; and a run of the graph from
its entry point executes the refinement node 0 times — hence never more than
max_refinements times. -/
theorem c5_refinement_loop :
    (∀ s : QuestionGenerationState,
        (decideAfterRefinement s = "validate" ↔ s.refinement_count < s.max_refinements)
      ∧ (decideAfterRefinement s = "fail" ↔ s.max_refinements ≤ s.refinement_count))
    ∧ (∀ (env : WorkflowEnv) (s : QuestionGenerationState),
        (stepGraph env .refinement s).1
          = (if (refineQuestionNode env s).refinement_count
                < (refineQuestionNode env s).max_refinements
             then GraphNode.validation else GraphNode.endNode))
    ∧ (∀ (env : WorkflowEnv) (fuel : Nat) (s : QuestionGenerationState),
        (runGraph env fuel .research s 0).2.2 = 0
      ∧ (runGraph env fuel .research s 0).2.2 ≤ s.max_refinements) := by
  refine ⟨?_, ?_, ?_⟩
  · intro s
    unfold decideAfterRefinement
    constructor
    · constructor
      · intro h
        by_cases hc : s.max_refinements ≤ s.refinement_count
        · rw [if_pos hc] at h
          exact absurd h (by decide)
        · omega
      · intro h
        rw [if_neg (by omega)]
    · constructor
      · intro h
        by_cases hc : s.max_refinements ≤ s.refinement_count
        · exact hc
        · rw [if_neg hc] at h
          exact absurd h (by decide)
      · intro h
        rw [if_pos h]
  · intro env s
    show routeAfterRefinement (decideAfterRefinement (refineQuestionNode env s)) = _
    unfold routeAfterRefinement decideAfterRefinement
    by_cases hc : (refineQuestionNode env s).max_refinements
        ≤ (refineQuestionNode env s).refinement_count
    · rw [if_pos hc, if_neg (by decide), if_neg (by omega)]
    · rw [if_neg hc, if_pos rfl, if_pos (by omega)]
  · intro env fuel s
    have h := runGraph_refs_zero env fuel .research s 0 (Or.inl rfl)
    exact ⟨h, by omega⟩

/-- C6: every attempt of the retry loop obtains its credential through exactly
one rotation (the cursor advances once per recorded attempt, so K attempts
cause K rotations), and for a deduplicated pool of at least 2 credentials the
credentials of consecutive attempts always differ — in particular a successful
retry uses a different credential than the failed attempt just before it. -/
theorem c6_retry_rotations (oracle : Nat → String → Except String String)
    (max_retries : Nat) (m : GroqTokenManager)
    (hnd : m.tokens.Nodup) (h2 : 2 ≤ m.tokens.length) :
    (callLLMWithRetry oracle max_retries m).mgr.cursor
        = m.cursor + (callLLMWithRetry oracle max_retries m).tokensUsed.length
    ∧ (callLLMWithRetry oracle max_retries m).tokensUsed.length ≤ max_retries
    ∧ List.Chain' (fun a b => a ≠ b) (callLLMWithRetry oracle max_retries m).tokensUsed := by
  obtain ⟨k, hk, hused, hcursor, htokens⟩ := callLLMGo_spec oracle max_retries 0 m []
  rw [List.nil_append] at hused
  unfold callLLMWithRetry
  rw [hused, hcursor, consecTokens_length]
  exact ⟨rfl, hk, consecTokens_chain m hnd h2 k⟩

/-- C6 witness: Scenario D — failures on attempts 1 and 2, success on attempt
3, max_attempts 3, pool [alpha, beta]: 3 attempts, 3 rotations (cursor 0→3),
credentials alpha, beta, alpha with consecutive attempts always differing. -/
theorem c6_witness :
    ((callLLMWithRetry scenarioDOracle 3 demoMgr).mgr.cursor
        = demoMgr.cursor + (callLLMWithRetry scenarioDOracle 3 demoMgr).tokensUsed.length
      ∧ (callLLMWithRetry scenarioDOracle 3 demoMgr).tokensUsed.length ≤ 3
      ∧ List.Chain' (fun a b => a ≠ b) (callLLMWithRetry scenarioDOracle 3 demoMgr).tokensUsed)
    ∧ (callLLMWithRetry scenarioDOracle 3 demoMgr).tokensUsed = ["alpha", "beta", "alpha"]
    ∧ (callLLMWithRetry scenarioDOracle 3 demoMgr).mgr.cursor = 3
    ∧ (callLLMWithRetry scenarioDOracle 3 demoMgr).outcome = some (.ok "conteúdo") :=
  ⟨c6_retry_rotations scenarioDOracle 3 demoMgr (by decide) (by decide), rfl, rfl, rfl⟩

/-- C7: with an always-failing completion stub, the retry loop with attempt
ceiling K (K ≥ 1) makes exactly K attempts and re-raises the error of the
final attempt (the one produced at attempt index K-1 with the K-th rotated
credential). -/
theorem c7_retry_exhaustion (oracle : Nat → String → Except String String)
    (err : Nat → String → String) (k : Nat) (m : GroqTokenManager)
    (hk : 1 ≤ k) (hf : ∀ j t, oracle j t = .error (err j t)) :
    (callLLMWithRetry oracle k m).tokensUsed.length = k
    ∧ (callLLMWithRetry oracle k m).outcome
        = some (.error (err (k - 1) (tokenAt m (k - 1)))) := by
  obtain ⟨hused, houtcome⟩ := callLLMGo_allfail oracle err hf k hk 0 m []
  unfold callLLMWithRetry
  rw [hused, houtcome, List.nil_append, consecTokens_length]
  constructor
  · rfl
  · rw [Nat.zero_add]

/-- C7 witness: the always-failing stub with max_attempts 3 over the
two-credential pool makes exactly 3 attempts and surfaces the final attempt's
error. -/
theorem c7_witness :
    (callLLMWithRetry alwaysFailOracle 3 demoMgr).tokensUsed.length = 3
    ∧ (callLLMWithRetry alwaysFailOracle 3 demoMgr).outcome
        = some (.error (alwaysFailErr (3 - 1) (tokenAt demoMgr (3 - 1)))) :=
  c7_retry_exhaustion alwaysFailOracle alwaysFailErr 3 demoMgr (by decide) (fun j t => rfl)

/-- C8: wrapping a completion response in leading/trailing triple-backtick code
fences, with any brace-free language tag (such as "json") or none, never
changes the parse result. -/
theorem c8_parse_fence_invariant (tag content : String)
    (htag : ∀ c ∈ tag.data, c ≠ '{' ∧ c ≠ '}') :
    parseGeneratedQuestion ("```" ++ tag ++ "\n" ++ content ++ "\n```")
      = parseGeneratedQuestion content := by
  unfold parseGeneratedQuestion parseGeneratedQuestionCore
  have hdata : ("```" ++ tag ++ "\n" ++ content ++ "\n```").data
      = ("```".data ++ tag.data ++ "\n".data) ++ (content.data ++ "\n```".data) := by
    simp only [String.data_append, List.append_assoc]
  have hp : ∀ c ∈ "```".data ++ tag.data ++ "\n".data, c ≠ '{' := by
    intro c hc
    rcases List.mem_append.mp hc with hc1 | hc2
    · rcases List.mem_append.mp hc1 with hca | hcb
      · have hall : ∀ x ∈ "```".data, x ≠ '{' := by decide
        exact hall c hca
      · exact (htag c hcb).1
    · have hall : ∀ x ∈ "\n".data, x ≠ '{' := by decide
      exact hall c hc2
  have hq : ∀ c ∈ "\n```".data, c ≠ '{' ∧ c ≠ '}' := by decide
  have hex : extractJson (cleanContent ("```" ++ tag ++ "\n" ++ content ++ "\n```").data)
      = extractJson (cleanContent content.data) := by
    rw [extractJson_cleanContent, extractJson_cleanContent, hdata,
        extractJson_dropFront _ _ hp, extractJson_drop_suffix _ _ hq]
  rw [hex]

set_option maxRecDepth 16384 in
/-- C8 witness: the demo payload parses identically with and without a
```json fence. -/
theorem c8_witness :
    parseGeneratedQuestion ("```" ++ "json" ++ "\n" ++ demoJson ++ "\n```")
      = parseGeneratedQuestion demoJson :=
  c8_parse_fence_invariant "json" demoJson (by decide)

/-- C9: a successful generate_question result always carries exactly 5
alternatives — the record schema enforces min_items = max_items = 5 — and a
final draft with any other number of alternatives makes the record
construction fail, which the service converts into a non-success result. -/
theorem c9_success_five :
    (∀ (env : WorkflowEnv) (sq : Question) (sim : List Question) (uid : String)
        (mr : Nat) (gq : GeneratedQuestionCreate) (rc : Nat),
        generateQuestion env sq sim uid mr = .success gq rc → gq.alternatives.length = 5)
    ∧ (∀ (env : WorkflowEnv) (sq : Question) (sim : List Question) (uid : String)
        (mr : Nat) (gd : GeneratedQuestionData),
        (runGraph env 25 .research (initialState sq sim uid mr) 0).2.1.generated_question
            = some gd →
        gd.alternatives.length ≠ 5 →
        (generateQuestion env sq sim uid mr).isSuccess = false) := by
  constructor
  · intro env sq sim uid mr gq rc h
    unfold generateQuestion serviceResult at h
    by_cases hst :
        (runGraph env 25 .research (initialState sq sim uid mr) 0).2.1.stage = .failed
    · rw [if_pos hst] at h
      exact GenResult.noConfusion h
    · rw [if_neg hst] at h
      cases hgq :
          (runGraph env 25 .research (initialState sq sim uid mr) 0).2.1.generated_question with
      | none =>
        rw [hgq] at h
        dsimp only at h
        exact GenResult.noConfusion h
      | some gd =>
        rw [hgq] at h
        dsimp only at h
        cases hmk : mkGeneratedQuestionCreate env sq uid gd with
        | ok g2 =>
          rw [hmk] at h
          injection h with ha hb
          obtain ⟨halts, hlen⟩ := mkCreate_ok_fields env sq uid gd g2 hmk
          rw [← ha, halts]
          exact hlen
        | error e2 =>
          rw [hmk] at h
          exact GenResult.noConfusion h
  · intro env sq sim uid mr gd hgq hlen
    unfold generateQuestion serviceResult
    by_cases hst :
        (runGraph env 25 .research (initialState sq sim uid mr) 0).2.1.stage = .failed
    · rw [if_pos hst]
      rfl
    · rw [if_neg hst, hgq]
      dsimp only
      cases hmk : mkGeneratedQuestionCreate env sq uid gd with
      | ok g2 => exact absurd (mkCreate_ok_fields env sq uid gd g2 hmk).2 hlen
      | error e2 => rfl

set_option maxRecDepth 16384 in
/-- C9 witness: the record produced by the successful demo run has exactly 5
alternatives. -/
theorem c9_witness : demoCreate.alternatives.length = 5 :=
  c9_success_five.1 successEnv demoSource [] "user123" 3 demoCreate 0 (by rfl)

/-- C10: when the validation stage's completion call raises (for example after
retry exhaustion), the run ends with stage FAILED even though a parsed draft is
present in the state, and generate_question returns \x7bsuccess: false\x7d
carrying the validation error — a present draft does not guarantee a completed
outcome. -/
theorem c10_validation_error_fails (env : WorkflowEnv) (sq : Question)
    (sim : List Question) (uid : String) (mr : Nat)
    (c : String) (q : GeneratedQuestionData) (e : String)
    (hg : env.generation_llm = .ok c) (hp : parseGeneratedQuestion c = .ok q)
    (hv : env.validation_llm = .error e) :
    ((runGraph env 25 .research (initialState sq sim uid mr) 0).2.1.stage
        = QuestionGenerationStage.failed)
    ∧ ((runGraph env 25 .research (initialState sq sim uid mr) 0).2.1.generated_question
        = some q)
    ∧ generateQuestion env sq sim uid mr
        = .failure ("Erro na validação da questão: " ++ e) := by
  have h2 : generateQuestionNode env (researchContextNode env (initialState sq sim uid mr))
      = { researchContextNode env (initialState sq sim uid mr) with
          stage := .generation, generated_question := some q,
          messages := (researchContextNode env (initialState sq sim uid mr)).messages
            ++ ["Questão gerada com sucesso."] } :=
    generateNode_ok_eq env _ c q hg hp
  have h3 : validateQuestionNode env (generateQuestionNode env
        (researchContextNode env (initialState sq sim uid mr)))
      = { generateQuestionNode env (researchContextNode env (initialState sq sim uid mr)) with
          stage := .failed,
          error_message := some ("Erro na validação da questão: " ++ e) } :=
    validateNode_err_eq env _ q e (by rw [h2]) hv
  refine ⟨?_, ?_, ?_⟩
  · rw [run25_research, h3]
  · rw [run25_research, h3]
    show (generateQuestionNode env
        (researchContextNode env (initialState sq sim uid mr))).generated_question = some q
    rw [h2]
  · unfold generateQuestion
    rw [run25_research, h3]
    unfold serviceResult
    rw [if_pos rfl]
    rfl

set_option maxRecDepth 16384 in
/-- C10 witness: the demo run with a raising validation call ends FAILED with
the demo draft present and returns the validation error. -/
theorem c10_witness :
    ((runGraph valFailEnv 25 .research (initialState demoSource [] "user123" 3) 0).2.1.stage
        = QuestionGenerationStage.failed)
    ∧ ((runGraph valFailEnv 25 .research
          (initialState demoSource [] "user123" 3) 0).2.1.generated_question
        = some demoDraft)
    ∧ generateQuestion valFailEnv demoSource [] "user123" 3
        = .failure ("Erro na validação da questão: " ++ "Timeout na requisição para Groq") :=
  c10_validation_error_fails valFailEnv demoSource [] "user123" 3 demoJson demoDraft
    "Timeout na requisição para Groq" rfl (by rfl) rfl

end Genem
